import Mathlib

/-!
Verification of the OCPP sample client/server session layer
(`server.py`, `client.py`, `settings.py`).

The development shallowly embeds the parts of the code the properties
talk about: the server-side connection negotiation in `Server.worker`,
the CSMS handlers `on_boot_notification` and `on_status_notification`,
the client-side `Client.run` supervisor with its `finish_up` teardown,
and `Client.handle_boot_notification_response`.
-/

namespace OCCP

/-- Hard-coded server credentials (server.py, lines 27 and 28). -/
def USERNAME : String := "test"

/-- Hard-coded server credentials (server.py, lines 27 and 28). -/
def PASSWORD : String := "123"

/-- settings.py: the ordered list of supported OCPP subprotocols. -/
def OCPP_SUBPROTOCOLS : List String := ["ocpp2.0.1"]

/-- A username/password pair as carried by a Basic Authorization header. -/
structure Credentials where
  username : String
  password : String
deriving DecidableEq, Repr

/-- The configured credential pair the server compares against
(server.py line 101: the header must equal
build_authorization_basic(USERNAME, PASSWORD)). -/
def configuredCredentials : Credentials := { username := USERNAME, password := PASSWORD }

/-- An inbound connection request as observed by `Server.worker`:
the decoded content of the Authorization header (`none` when the header is
absent), the requested subprotocol list from the Sec-WebSocket-Protocol
header (`none` when that header is absent), and the request path. -/
structure ConnectionRequest where
  authorization : Option Credentials
  requestedSubprotocols : Option (List String)
  path : String
deriving DecidableEq, Repr

/-- Outcome of `Server.worker` negotiation: either a handshake rejection with
an HTTP status and reason (`reject_handshake`, server.py lines 93 to 95), or
acceptance, after which the worker constructs CSMSServer(charge_point_id,
websocket) with the selected subprotocol active. -/
inductive NegotiationResult where
  | rejected (status : Nat) (reason : String)
  | accepted (chargePointId : String) (subprotocol : String)
deriving DecidableEq, Repr

/-- Python path.strip("/") as used on server.py line 121: remove every
leading and trailing slash character. -/
def stripSlashes (s : String) : String :=
  String.mk (((s.data.dropWhile (fun c => c = '/')).reverse.dropWhile
    (fun c => c = '/')).reverse)

/-- Modelled from the spec: the subprotocol selection is performed inside the
external websockets transport library (the worker only reads the resulting
`websocket.subprotocol` attribute on server.py line 113, and that code is not
part of this repository). Per the spec, the selected subprotocol is the first
match in the order declared by the supported list; the selection is empty
exactly when the requested and supported sets do not intersect. -/
def select_subprotocol (supported requested : List String) : Option String :=
  supported.find? (fun s => requested.contains s)

/-- The rejection reason built on server.py lines 116 and 117, naming the
supported set and the requested set. -/
def mismatchMsg (supported requested : List String) : String :=
  "Protocols Mismatched, expected Subprotocols " ++ toString supported ++
    ", but received " ++ toString requested ++ "."

/-- `Server.worker` negotiation (server.py lines 97 to 122).
In order: missing Authorization header rejects with 401 "Access denied.";
credentials different from the configured pair reject with 403
"Invalid Username/Password."; a missing Sec-WebSocket-Protocol header rejects
with 400 "Subprotocol missing."; an empty intersection between requested and
supported subprotocols rejects with 400 and `mismatchMsg`; otherwise the
connection is accepted and the CSMSServer for the charge point id
(path stripped of slashes) is constructed. -/
def worker (expected : Credentials) (supported : List String)
    (req : ConnectionRequest) : NegotiationResult :=
  match req.authorization with
  | none => .rejected 401 "Access denied."
  | some creds =>
    if creds = expected then
      match req.requestedSubprotocols with
      | none => .rejected 400 "Subprotocol missing."
      | some requested =>
        match select_subprotocol supported requested with
        | none => .rejected 400 (mismatchMsg supported requested)
        | some sp => .accepted (stripSlashes req.path) sp
    else
      .rejected 403 "Invalid Username/Password."

/-- C1: the negotiator applies its checks in order, first failure winning:
no Authorization data rejects with 401 "Access denied." regardless of every
other field of the request; present but non-matching credentials reject with
403 "Invalid Username/Password." regardless of the subprotocol fields; with
matching credentials, a missing subprotocol list rejects with 400
"Subprotocol missing."; so the credential checks are decided strictly before
the subprotocol checks. -/
theorem worker_checks_in_order (expected : Credentials) (supported : List String)
    (req : ConnectionRequest) :
    (req.authorization = none →
      worker expected supported req = .rejected 401 "Access denied.") ∧
    (∀ creds, req.authorization = some creds → creds ≠ expected →
      worker expected supported req = .rejected 403 "Invalid Username/Password.") ∧
    (req.authorization = some expected → req.requestedSubprotocols = none →
      worker expected supported req = .rejected 400 "Subprotocol missing.") := by
  refine ⟨fun h => ?_, fun creds hc hne => ?_, fun ha hs => ?_⟩
  · simp [worker, h]
  · simp [worker, hc, hne]
  · simp [worker, ha, hs]

/-- Witness for C1: the three rejection branches at concrete requests. -/
theorem worker_checks_in_order_witness :
    worker configuredCredentials OCPP_SUBPROTOCOLS
      { authorization := none, requestedSubprotocols := some ["ocpp2.0.1"],
        path := "/CP_01" } = .rejected 401 "Access denied." ∧
    worker configuredCredentials OCPP_SUBPROTOCOLS
      { authorization := some { username := "test", password := "wrong" },
        requestedSubprotocols := some ["ocpp2.0.1"],
        path := "/CP_01" } = .rejected 403 "Invalid Username/Password." ∧
    worker configuredCredentials OCPP_SUBPROTOCOLS
      { authorization := some configuredCredentials,
        requestedSubprotocols := none,
        path := "/CP_01" } = .rejected 400 "Subprotocol missing." :=
  ⟨(worker_checks_in_order configuredCredentials OCPP_SUBPROTOCOLS _).1 rfl,
   (worker_checks_in_order configuredCredentials OCPP_SUBPROTOCOLS _).2.1 _ rfl (by decide),
   (worker_checks_in_order configuredCredentials OCPP_SUBPROTOCOLS _).2.2 rfl rfl⟩

/-- A successful `List.find?` splits the list at the first element satisfying
the predicate: everything before it fails the predicate. -/
theorem find?_first_split {α} (p : α → Bool) :
    ∀ (l : List α) (a : α), l.find? p = some a →
      ∃ pre post, l = pre ++ a :: post ∧ (∀ x ∈ pre, p x = false) ∧ p a = true := by
  intro l
  induction l with
  | nil => intro a h; simp at h
  | cons hd tl ih =>
    intro a h
    by_cases hp : p hd
    · rw [List.find?_cons_of_pos _ hp] at h
      cases h
      exact ⟨[], tl, rfl, by simp, hp⟩
    · rw [List.find?_cons_of_neg _ (by simpa using hp)] at h
      obtain ⟨pre, post, heq, hpre, hpa⟩ := ih a h
      refine ⟨hd :: pre, post, by simp [heq], ?_, hpa⟩
      intro x hx
      rcases List.mem_cons.mp hx with rfl | hx
      · simpa using hp
      · exact hpre x hx

/-- C2: with passing credentials and a subprotocol list present, either the
requested subprotocols do not intersect the supported set and negotiation
rejects with 400 and a message naming both sets, or the connection is
accepted with the first subprotocol, in supported-list order, that was
requested (every supported subprotocol listed before it was not requested). -/
theorem worker_subprotocol_negotiation (expected : Credentials)
    (supported : List String) (req : ConnectionRequest) (requested : List String)
    (hauth : req.authorization = some expected)
    (hreq : req.requestedSubprotocols = some requested) :
    ((∀ s ∈ supported, s ∉ requested) ∧
      worker expected supported req =
        .rejected 400 (mismatchMsg supported requested)) ∨
    (∃ sp pre post,
      worker expected supported req = .accepted (stripSlashes req.path) sp ∧
      supported = pre ++ sp :: post ∧ sp ∈ requested ∧
      ∀ s ∈ pre, s ∉ requested) := by
  rcases hsel : select_subprotocol supported requested with _ | sp
  · left
    constructor
    · intro s hs
      have := List.find?_eq_none.mp hsel s hs
      simpa using this
    · simp [worker, hauth, hreq, hsel]
  · right
    obtain ⟨pre, post, heq, hpre, hsp⟩ := find?_first_split _ supported sp hsel
    refine ⟨sp, pre, post, by simp [worker, hauth, hreq, hsel], heq, by simpa using hsp, ?_⟩
    intro s hs
    simpa using hpre s hs

/-- Witness for C2: the spec example, supported = ["ocpp2.0.1"] and
requested = ["ocpp1.6", "ocpp2.0.1"], selects "ocpp2.0.1". -/
theorem worker_subprotocol_negotiation_witness :
    ((∀ s ∈ OCPP_SUBPROTOCOLS, s ∉ ["ocpp1.6", "ocpp2.0.1"]) ∧
      worker configuredCredentials OCPP_SUBPROTOCOLS
        { authorization := some configuredCredentials,
          requestedSubprotocols := some ["ocpp1.6", "ocpp2.0.1"],
          path := "/CP_01" } =
        .rejected 400 (mismatchMsg OCPP_SUBPROTOCOLS ["ocpp1.6", "ocpp2.0.1"])) ∨
    (∃ sp pre post,
      worker configuredCredentials OCPP_SUBPROTOCOLS
        { authorization := some configuredCredentials,
          requestedSubprotocols := some ["ocpp1.6", "ocpp2.0.1"],
          path := "/CP_01" } = .accepted (stripSlashes "/CP_01") sp ∧
      OCPP_SUBPROTOCOLS = pre ++ sp :: post ∧ sp ∈ ["ocpp1.6", "ocpp2.0.1"] ∧
      ∀ s ∈ pre, s ∉ ["ocpp1.6", "ocpp2.0.1"]) :=
  worker_subprotocol_negotiation configuredCredentials OCPP_SUBPROTOCOLS
    { authorization := some configuredCredentials,
      requestedSubprotocols := some ["ocpp1.6", "ocpp2.0.1"],
      path := "/CP_01" } ["ocpp1.6", "ocpp2.0.1"] rfl rfl

/-- C3: when credentials are missing or differ from the configured pair, the
worker rejects with status 401 or 403, and the result is never an acceptance,
so no CSMSServer session object is constructed for that connection and the
failure never reaches session logic. -/
theorem worker_auth_failure_no_session (expected : Credentials)
    (supported : List String) (req : ConnectionRequest)
    (h : req.authorization = none ∨
      ∃ c, req.authorization = some c ∧ c ≠ expected) :
    (worker expected supported req = .rejected 401 "Access denied." ∨
     worker expected supported req = .rejected 403 "Invalid Username/Password.") ∧
    ∀ cp sp, worker expected supported req ≠ .accepted cp sp := by
  rcases h with h | ⟨c, hc, hne⟩
  · refine ⟨Or.inl ?_, fun cp sp => ?_⟩ <;> simp [worker, h]
  · refine ⟨Or.inr ?_, fun cp sp => ?_⟩ <;> simp [worker, hc, hne]

/-- Witness for C3: wrong password at a concrete request. -/
theorem worker_auth_failure_no_session_witness :
    (worker configuredCredentials OCPP_SUBPROTOCOLS
        { authorization := some { username := "test", password := "nope" },
          requestedSubprotocols := some ["ocpp2.0.1"], path := "/CP_01" } =
        .rejected 401 "Access denied." ∨
     worker configuredCredentials OCPP_SUBPROTOCOLS
        { authorization := some { username := "test", password := "nope" },
          requestedSubprotocols := some ["ocpp2.0.1"], path := "/CP_01" } =
        .rejected 403 "Invalid Username/Password.") ∧
    ∀ cp sp, worker configuredCredentials OCPP_SUBPROTOCOLS
        { authorization := some { username := "test", password := "nope" },
          requestedSubprotocols := some ["ocpp2.0.1"], path := "/CP_01" } ≠
        .accepted cp sp :=
  worker_auth_failure_no_session configuredCredentials OCPP_SUBPROTOCOLS _
    (Or.inr ⟨_, rfl, by decide⟩)

/-- RegistrationStatusType (ocpp.v201.enums): the three registration
statuses a boot notification response can carry. -/
inductive RegistrationStatusType where
  | accepted
  | pending
  | rejected
deriving DecidableEq, Repr

/-- call_result.BootNotificationPayload as built by on_boot_notification
(server.py lines 49 to 53): current server time, re-registration interval in
seconds, and the registration status. -/
structure BootNotificationPayload where
  current_time : String
  interval : Nat
  status : RegistrationStatusType
deriving DecidableEq, Repr

/-- An observable step of the client supervisor: a log record at some level,
or the invocation of the `finish_up` teardown routine. -/
inductive RunEvent where
  | logInfo (msg : String)
  | logWarning (msg : String)
  | logError (msg : String)
  | finishUpCall
deriving DecidableEq, Repr

/-- Recognizer for the teardown event. -/
def RunEvent.isFinishUp : RunEvent → Bool
  | .finishUpCall => true
  | _ => false

/-- How the body of the try block in `Client.run` (client.py lines 117 to
131) can end: normal completion, a WebSocketException, a RuntimeError, or
any other unexpected exception. -/
inductive BodyOutcome where
  | success
  | wsException
  | runtimeError
  | otherError
deriving DecidableEq, Repr

/-- `Client.run` control flow (client.py lines 116 to 139): the try body
ends with outcome `o`; `except WebSocketException` logs a connection error,
`except RuntimeError` logs an unknown server error, any other exception is
unhandled; the `finally` clause invokes `finish_up` on every path before the
routine returns. Result: the ordered event trace and whether an exception
escapes the routine. -/
def clientRun : BodyOutcome → List RunEvent × Bool
  | .success => ([.finishUpCall], false)
  | .wsException =>
      ([.logError ("Connection refused from Server. Make sure you entered" ++
        " the correct credentials."), .finishUpCall], false)
  | .runtimeError =>
      ([.logError "Unknown error happened on server.", .finishUpCall], false)
  | .otherError => ([.finishUpCall], true)

/-- C4: on every exit path of `Client.run` — normal completion, handled
connection or runtime error, or unexpected error — the trace contains the
`finish_up` teardown invocation exactly once, and it is the last event
before the routine returns. -/
theorem clientRun_teardown_exactly_once (o : BodyOutcome) :
    ((clientRun o).1.countP RunEvent.isFinishUp = 1) ∧
    (clientRun o).1.getLast? = some RunEvent.finishUpCall := by
  cases o <;> exact ⟨rfl, rfl⟩

/-- `Client.handle_boot_notification_response` (client.py lines 97 to 105):
an absent response raises RuntimeError("No response received with boot
notification request."); otherwise exactly one log record is emitted
according to the registration status. -/
def handle_boot_notification_response (response : Option BootNotificationPayload) :
    Except String (List RunEvent) :=
  match response with
  | none => .error "No response received with boot notification request."
  | some r =>
    match r.status with
    | .accepted => .ok [.logInfo "Boot notification acknowledged!"]
    | .pending => .ok [.logInfo "Boot notification pending!"]
    | .rejected => .ok [.logWarning "Boot notification rejected!"]

/-- C5: an absent boot-notification response is signalled as the distinct
RuntimeError failure, which the supervisor path for RuntimeError logs as an
unknown server-side condition and then tears down; a present response
produces exactly one log event — info acknowledgement for Accepted, info
pending for Pending, warning for Rejected. -/
theorem boot_response_handling (r : BootNotificationPayload) :
    handle_boot_notification_response none =
      .error "No response received with boot notification request." ∧
    (clientRun .runtimeError).1 =
      [.logError "Unknown error happened on server.", .finishUpCall] ∧
    ∃ ev, handle_boot_notification_response (some r) = .ok [ev] ∧
      ((r.status = .accepted ∧ ev = .logInfo "Boot notification acknowledged!") ∨
       (r.status = .pending ∧ ev = .logInfo "Boot notification pending!") ∨
       (r.status = .rejected ∧ ev = .logWarning "Boot notification rejected!")) := by
  refine ⟨rfl, rfl, ?_⟩
  rcases hs : r.status with _ | _ | _
  · exact ⟨.logInfo "Boot notification acknowledged!",
      by simp [handle_boot_notification_response, hs], Or.inl ⟨rfl, rfl⟩⟩
  · exact ⟨.logInfo "Boot notification pending!",
      by simp [handle_boot_notification_response, hs], Or.inr (Or.inl ⟨rfl, rfl⟩)⟩
  · exact ⟨.logWarning "Boot notification rejected!",
      by simp [handle_boot_notification_response, hs], Or.inr (Or.inr ⟨rfl, rfl⟩)⟩

/-- The lifecycle state of one registered asyncio task, as relevant to
teardown: still pending, already requested to cancel, or already done. -/
inductive TaskState where
  | pending
  | cancelRequested
  | done
deriving DecidableEq, Repr

/-- asyncio Task.cancel semantics as used by `finish_up`: requesting
cancellation of a pending task marks it cancel-requested; repeating the
request, or cancelling a finished task, changes nothing and raises no
error. A cancel-requested task fails with CancelledError exactly once, at
its next suspension point, as a function of this terminal state. -/
def cancelTask : TaskState → TaskState
  | .pending => .cancelRequested
  | .cancelRequested => .cancelRequested
  | .done => .done

/-- `Client.finish_up` (client.py lines 107 to 109): request cancellation of
every task registered in the `_tasks` list. -/
def finish_up (tasks : List TaskState) : List TaskState :=
  tasks.map cancelTask

/-- Whether a task will fail with CancelledError, given its state after
teardown. -/
def failsCancelled : TaskState → Bool
  | .cancelRequested => true
  | _ => false

/-- C8: teardown is idempotent — from any task-list state, invoking
`finish_up` twice yields exactly the state of invoking it once, with no
error; and every task still pending at teardown time is left
cancel-requested by the first invocation and unchanged by the second, so it
fails with Cancelled exactly once. -/
theorem finish_up_idempotent (tasks : List TaskState) (i : Nat)
    (hi : tasks[i]? = some .pending) :
    finish_up (finish_up tasks) = finish_up tasks ∧
    (finish_up tasks)[i]? = some .cancelRequested ∧
    (finish_up (finish_up tasks))[i]? = some .cancelRequested ∧
    failsCancelled .cancelRequested = true := by
  have hidem : finish_up (finish_up tasks) = finish_up tasks := by
    simp only [finish_up, List.map_map]
    congr 1
    funext t
    cases t <;> rfl
  refine ⟨hidem, ?_, ?_, rfl⟩
  · simp [finish_up, List.getElem?_map, hi, cancelTask]
  · rw [hidem]
    simp [finish_up, List.getElem?_map, hi, cancelTask]

/-- Witness for C8: a task list with one pending, one cancel-requested and
one finished task; the pending task at index 0. -/
theorem finish_up_idempotent_witness :
    finish_up (finish_up [.pending, .cancelRequested, .done]) =
      finish_up [.pending, .cancelRequested, .done] ∧
    (finish_up [.pending, .cancelRequested, .done])[0]? =
      some .cancelRequested ∧
    (finish_up (finish_up [.pending, .cancelRequested, .done]))[0]? =
      some .cancelRequested ∧
    failsCancelled .cancelRequested = true :=
  finish_up_idempotent [.pending, .cancelRequested, .done] 0 rfl

/-- How the station-validation body of the try block in
`on_boot_notification` can end: normal completion, a RuntimeError, or a
TimeoutError — the only two exception types the handler catches. -/
inductive ValidationOutcome where
  | ok
  | runtimeError
  | timeoutError
deriving DecidableEq, Repr

/-- The interval/status decision of `on_boot_notification` (server.py lines
38 to 47): normal completion of the try body gives interval 10 and status
accepted; `except RuntimeError` gives interval 60 and status rejected;
`except TimeoutError` gives interval 120 and status pending. -/
def bootDecision : ValidationOutcome → Nat × RegistrationStatusType
  | .ok => (10, .accepted)
  | .runtimeError => (60, .rejected)
  | .timeoutError => (120, .pending)

/-- `CSMSServer.on_boot_notification` (server.py lines 36 to 53),
parameterized by the current server time, the outcome of the station
validation in the try body, and the (ignored) keyword arguments of the
request. The body is a pure computation with no await: the handler never
suspends waiting on the charge point. -/
def on_boot_notification (now : String) (v : ValidationOutcome)
    (kwargs : List (String × String)) : BootNotificationPayload :=
  let _ := kwargs
  { current_time := now, interval := (bootDecision v).1,
    status := (bootDecision v).2 }

/-- The station-validation body as actually written (server.py lines 39 to
41): it only assigns the constants interval = 10 and
status = RegistrationStatusType.accepted, so it always completes normally —
it can raise neither RuntimeError nor TimeoutError. -/
def bootValidationStub : ValidationOutcome := .ok

/-- `on_boot_notification` as it actually executes: the validation outcome is
always the stub outcome. -/
def on_boot_notification_actual (now : String)
    (kwargs : List (String × String)) : BootNotificationPayload :=
  on_boot_notification now bootValidationStub kwargs

/-- C6: the boot-notification handler returns the current server time and a
decision determined by the validation outcome — success gives Accepted with
interval 10, a transient failure (TimeoutError) gives Pending with interval
120, a hard failure (RuntimeError) gives Rejected with interval 60 — and is
a pure function of its inputs, independent of the keyword arguments, so it
never suspends waiting on the charge point. -/
theorem on_boot_notification_decision_table (now : String)
    (v : ValidationOutcome) (kwargs kwargs2 : List (String × String)) :
    (on_boot_notification now v kwargs).current_time = now ∧
    (v = .ok → on_boot_notification now v kwargs =
      { current_time := now, interval := 10, status := .accepted }) ∧
    (v = .timeoutError → on_boot_notification now v kwargs =
      { current_time := now, interval := 120, status := .pending }) ∧
    (v = .runtimeError → on_boot_notification now v kwargs =
      { current_time := now, interval := 60, status := .rejected }) ∧
    on_boot_notification now v kwargs = on_boot_notification now v kwargs2 := by
  refine ⟨rfl, fun h => ?_, fun h => ?_, fun h => ?_, rfl⟩ <;>
    subst h <;> rfl

/-- Witness for C6: the decision table at a concrete time and outcome. -/
theorem on_boot_notification_decision_table_witness :
    (on_boot_notification "2020-01-01T00:00:00" .timeoutError []).current_time =
      "2020-01-01T00:00:00" ∧
    (ValidationOutcome.timeoutError = .ok →
      on_boot_notification "2020-01-01T00:00:00" .timeoutError [] =
      { current_time := "2020-01-01T00:00:00", interval := 10,
        status := .accepted }) ∧
    (ValidationOutcome.timeoutError = .timeoutError →
      on_boot_notification "2020-01-01T00:00:00" .timeoutError [] =
      { current_time := "2020-01-01T00:00:00", interval := 120,
        status := .pending }) ∧
    (ValidationOutcome.timeoutError = .runtimeError →
      on_boot_notification "2020-01-01T00:00:00" .timeoutError [] =
      { current_time := "2020-01-01T00:00:00", interval := 60,
        status := .rejected }) ∧
    on_boot_notification "2020-01-01T00:00:00" .timeoutError [] =
      on_boot_notification "2020-01-01T00:00:00" .timeoutError
        [("reason", "PowerUp")] :=
  on_boot_notification_decision_table "2020-01-01T00:00:00" .timeoutError []
    [("reason", "PowerUp")]

/-- C7: as actually written the try body only assigns constants, so the
validation outcome is always normal completion and every invocation of the
handler, whatever its keyword arguments, returns status Accepted with
interval 10 — the Rejected and Pending branches are unreachable. -/
theorem on_boot_notification_always_accepted (now : String)
    (kwargs : List (String × String)) :
    bootValidationStub = .ok ∧
    on_boot_notification_actual now kwargs =
      { current_time := now, interval := 10, status := .accepted } :=
  ⟨rfl, rfl⟩

/-- The empty call_result.StatusNotificationPayload returned by
`on_status_notification` (server.py line 58). -/
structure StatusNotificationAck where
deriving DecidableEq, Repr

/-- `CSMSServer.on_status_notification` (server.py lines 55 to 58):
returns an empty acknowledgement whatever the keyword arguments are; the
body is a single return of a constant, so it cannot raise. -/
def on_status_notification (kwargs : List (String × String)) :
    StatusNotificationAck :=
  let _ := kwargs
  {}

/-- C10: the status-notification handler accepts every request and returns
the empty acknowledgement; as a total constant function of its payload it
never rejects, never raises, and never depends on the request contents. -/
theorem on_status_notification_unconditional
    (kwargs kwargs2 : List (String × String)) :
    on_status_notification kwargs = StatusNotificationAck.mk ∧
    on_status_notification kwargs = on_status_notification kwargs2 :=
  ⟨rfl, rfl⟩

/-- The CSMSServer instance constructed for one accepted connection
(server.py line 122): it is identified by the charge point id. -/
structure CSMSServerInst where
  id : String
deriving DecidableEq, Repr

/-- The mutable state of the single `Server` object (server.py lines 83 to
91): `self.csms_server`, initialized to None and overwritten by `worker`
on every accepted connection. -/
structure ServerState where
  csms_server : Option CSMSServerInst
deriving DecidableEq, Repr

/-- `Server.__init__`: self.csms_server = None. -/
def ServerState.init : ServerState := { csms_server := none }

/-- The state effect of `Server.worker` (server.py lines 120 to 122): on a
successful negotiation it assigns self.csms_server =
CSMSServer(charge_point_id, websocket) on the one shared Server object,
overwriting whatever was there; a rejection leaves the state unchanged. -/
def workerAdmit (expected : Credentials) (supported : List String)
    (st : ServerState) (req : ConnectionRequest) :
    ServerState × NegotiationResult :=
  match worker expected supported req with
  | .accepted cp sp => ({ csms_server := some { id := cp } }, .accepted cp sp)
  | r => (st, r)

/-- The charge point id that `Server.stop_server` (server.py lines 140 to
143) logs on a connection error: it reads self.csms_server.id from the
shared Server object. -/
def stopServerObservedId (st : ServerState) : Option String :=
  st.csms_server.map CSMSServerInst.id

/-- Counterexample to C9: with the configured credentials and subprotocols,
admit CP_01 and then CP_02. Both negotiations are accepted, yet the second
admission overwrites the shared csms_server slot, so the id observed by the
first connection through `stop_server` changes from CP_01 to CP_02: the
Server state observed by the first connection mutates on the second
admission. -/
theorem second_admission_mutates_observed_state :
    (workerAdmit configuredCredentials OCPP_SUBPROTOCOLS ServerState.init
        { authorization := some configuredCredentials,
          requestedSubprotocols := some ["ocpp2.0.1"],
          path := "/CP_01" }).2 = .accepted "CP_01" "ocpp2.0.1" ∧
    (workerAdmit configuredCredentials OCPP_SUBPROTOCOLS
        (workerAdmit configuredCredentials OCPP_SUBPROTOCOLS ServerState.init
          { authorization := some configuredCredentials,
            requestedSubprotocols := some ["ocpp2.0.1"],
            path := "/CP_01" }).1
        { authorization := some configuredCredentials,
          requestedSubprotocols := some ["ocpp2.0.1"],
          path := "/CP_02" }).2 = .accepted "CP_02" "ocpp2.0.1" ∧
    stopServerObservedId
      (workerAdmit configuredCredentials OCPP_SUBPROTOCOLS ServerState.init
        { authorization := some configuredCredentials,
          requestedSubprotocols := some ["ocpp2.0.1"],
          path := "/CP_01" }).1 = some "CP_01" ∧
    stopServerObservedId
      (workerAdmit configuredCredentials OCPP_SUBPROTOCOLS
        (workerAdmit configuredCredentials OCPP_SUBPROTOCOLS ServerState.init
          { authorization := some configuredCredentials,
            requestedSubprotocols := some ["ocpp2.0.1"],
            path := "/CP_01" }).1
        { authorization := some configuredCredentials,
          requestedSubprotocols := some ["ocpp2.0.1"],
          path := "/CP_02" }).1 = some "CP_02" ∧
    some "CP_02" ≠ some "CP_01" := by
  refine ⟨by decide, by decide, by decide, by decide, by decide⟩

/-- C9 as amended: each invocation of the boot- and status-notification
handlers is a pure function of its own arguments and reads no Server state;
but the Server object itself holds shared mutable state — every accepted
admission overwrites the single csms_server attribute with the new
connection, whatever the previous state was, so the reference observed by
an earlier connection through stop_server is mutated by a later admission. -/
theorem handlers_pure_but_server_slot_shared (now : String)
    (v : ValidationOutcome) (kwargs : List (String × String))
    (expected : Credentials) (supported : List String)
    (st st2 : ServerState) (req : ConnectionRequest) (cp sp : String)
    (hacc : worker expected supported req = .accepted cp sp) :
    on_boot_notification now v kwargs = on_boot_notification now v kwargs ∧
    on_status_notification kwargs = on_status_notification kwargs ∧
    (workerAdmit expected supported st req).1 =
      { csms_server := some { id := cp } } ∧
    (workerAdmit expected supported st req).1 =
      (workerAdmit expected supported st2 req).1 := by
  refine ⟨rfl, rfl, ?_, ?_⟩ <;> simp [workerAdmit, hacc]

/-- Witness for the amended C9: the overwrite at a concrete accepted
request, independent of the prior state. -/
theorem handlers_pure_but_server_slot_shared_witness :
    on_boot_notification "t" .ok [] = on_boot_notification "t" .ok [] ∧
    on_status_notification [] = on_status_notification [] ∧
    (workerAdmit configuredCredentials OCPP_SUBPROTOCOLS
        { csms_server := some { id := "CP_01" } }
        { authorization := some configuredCredentials,
          requestedSubprotocols := some ["ocpp2.0.1"],
          path := "/CP_02" }).1 =
      { csms_server := some { id := "CP_02" } } ∧
    (workerAdmit configuredCredentials OCPP_SUBPROTOCOLS
        { csms_server := some { id := "CP_01" } }
        { authorization := some configuredCredentials,
          requestedSubprotocols := some ["ocpp2.0.1"],
          path := "/CP_02" }).1 =
      (workerAdmit configuredCredentials OCPP_SUBPROTOCOLS ServerState.init
        { authorization := some configuredCredentials,
          requestedSubprotocols := some ["ocpp2.0.1"],
          path := "/CP_02" }).1 :=
  handlers_pure_but_server_slot_shared "t" .ok [] configuredCredentials
    OCPP_SUBPROTOCOLS { csms_server := some { id := "CP_01" } }
    ServerState.init
    { authorization := some configuredCredentials,
      requestedSubprotocols := some ["ocpp2.0.1"], path := "/CP_02" }
    "CP_02" "ocpp2.0.1" (by decide)

end OCCP
